import Mathlib

/-!
Shallow embedding of the `twitter_bot` repository (Python sources
`twitter_bot.py`, `twitter_auth.py`, `models.py`) for checking its
natural-language specification.

Conventions of the embedding:
* MongoDB collections are Lean lists of structure values; the document
  `_id` of a post is modelled as a `Nat` field `id`.
* `datetime` values are `Nat` (seconds); `datetime.utcnow()` becomes an
  explicit `now` parameter.  The Mongo `$dateToString "%Y-%m-%d"` day
  bucketing is modelled by integer division by 86400 (the formatted
  date string is order-isomorphic to the day index).
* Python in-memory `set`s are modelled as duplicate-free lists built
  with `addToSet` (insertion order view of a set, matching Mongo's
  `$addToSet` as well).
* External capabilities (selenium login, the twscrape search client)
  are modelled as oracle parameters, following the spec's treatment of
  them as opaque capabilities.
* A raised `DuplicateKeyError` that the code does not catch is
  modelled with `Except`.
-/

namespace TwitterBot

/-- Insert an element into a list-as-set unless already present
(Python `set.add` / Mongo `$addToSet`). -/
def addToSet {α : Type} [BEq α] (l : List α) (a : α) : List α :=
  if l.contains a then l else l ++ [a]

/-- Mongo `$addToSet` with `$each`: add every element of `new` not already present. -/
def addEach {α : Type} [BEq α] (l : List α) (new : List α) : List α :=
  new.foldl addToSet l

/-- Distinct elements of a list, keeping first occurrences in order
(the distinct grouping keys produced by a Mongo `$group`). -/
def dedupFirst {α : Type} [BEq α] (l : List α) : List α :=
  l.foldl addToSet []

/-! ## Data model (`models.py` collections, document shapes from the writers) -/

/-- A tweet record as normalised by `search_hashtag_pairs`
(`twitter_bot.py` lines 57–67). -/
structure Tweet where
  username : String
  hashtags : List String
  caption : String
  timestamp : Nat
  likes : Nat
  comments : Nat
  retweets : Nat
  url : String
deriving DecidableEq

/-- A document of the `posts` collection: a tweet plus the fields added
by `store_tweets` (`campaign_id`, `processed`) and its Mongo `_id`. -/
structure Post where
  id : Nat
  campaign_id : String
  username : String
  hashtags : List String
  caption : String
  timestamp : Nat
  likes : Nat
  comments : Nat
  retweets : Nat
  url : String
  processed : Bool
deriving DecidableEq

/-- A document of the `campaigns` collection (shape from the dashboard
writer and the readers in `twitter_bot.py`). -/
structure Campaign where
  id : String
  name : String
  hashtag_pairs : List (List String)
  active : Bool
deriving DecidableEq

/-- A document of the `flagged_accounts` collection
(`detect_flagged_accounts` upsert, `twitter_bot.py` lines 128–142). -/
structure FlaggedAccount where
  username : String
  campaign_id : String
  first_detected : Nat
  last_detected : Nat
  post_count : Nat
  posts : List Nat
deriving DecidableEq

/-- A document of the `hashtag_activity` collection
(`detect_activity_surges` upsert, `twitter_bot.py` lines 177–191). -/
structure HashtagActivity where
  campaign_id : String
  hashtag_pair : List String
  date : Nat
  post_count : Nat
  unique_accounts : Nat
  is_surge : Bool
deriving DecidableEq

/-- The collections of the `twitter_monitor` database touched by the
monitor (`posts`, `flagged_accounts`, `hashtag_activity`, `campaigns`). -/
structure DB where
  posts : List Post
  flagged : List FlaggedAccount
  activity : List HashtagActivity
  campaigns : List Campaign
deriving DecidableEq

/-! ## `store_tweets` (`twitter_bot.py` lines 86–99)

The `posts` collection has a unique index on `url` (`models.py` line 21),
so `insert_one` raises `DuplicateKeyError` exactly when the URL is
already present; that exception is swallowed (`continue`).  Any other
per-post storage error is modelled by the oracle `fails` and is logged
without aborting the batch. -/

/-- Does a post with this URL already exist (the unique `url` index)? -/
def urlExists (posts : List Post) (u : String) : Bool :=
  posts.any (fun p => p.url == u)

/-- Build the stored document from a tweet (`tweet["campaign_id"] = …`,
`tweet["processed"] = False`); the fresh `_id` is the next index. -/
def mkPost (cid : String) (i : Nat) (t : Tweet) : Post :=
  { id := i, campaign_id := cid, username := t.username,
    hashtags := t.hashtags, caption := t.caption, timestamp := t.timestamp,
    likes := t.likes, comments := t.comments, retweets := t.retweets,
    url := t.url, processed := false }

/-- Function `store_tweets`: returns the updated `posts` collection and
`inserted_count`. -/
def store_tweets (fails : Tweet → Bool) (cid : String) :
    List Tweet → List Post → List Post × Nat
  | [], posts => (posts, 0)
  | t :: rest, posts =>
    if urlExists posts t.url then
      store_tweets fails cid rest posts
    else if fails t then
      store_tweets fails cid rest posts
    else
      let r := store_tweets fails cid rest (posts ++ [mkPost cid posts.length t])
      (r.1, r.2 + 1)

/-! ## `detect_flagged_accounts` (`twitter_bot.py` lines 101–147) -/

/-- The aggregation `$match` stage: campaign, trailing 1-hour window,
unprocessed. -/
def windowMatch (cid : String) (oneHourAgo : Nat) (p : Post) : Bool :=
  p.campaign_id == cid && decide (oneHourAgo ≤ p.timestamp) && !p.processed

/-- One `$group` output row (grouped by `username`). -/
structure AccountGroup where
  username : String
  post_count : Nat
  post_ids : List Nat
  first_post : Nat
  last_post : Nat
deriving DecidableEq

/-- Mongo `$min` of the timestamps of a (nonempty) group. -/
def minTs : List Post → Nat
  | [] => 0
  | p :: ps => ps.foldl (fun a q => min a q.timestamp) p.timestamp

/-- Mongo `$max` of the timestamps of a (nonempty) group. -/
def maxTs : List Post → Nat
  | [] => 0
  | p :: ps => ps.foldl (fun a q => max a q.timestamp) p.timestamp

/-- The `$group` stage keyed on `$username` with `$sum`, `$push`,
`$min`, `$max`. -/
def groupByUsername (ps : List Post) : List AccountGroup :=
  (dedupFirst (ps.map Post.username)).map (fun u =>
    let grp := ps.filter (fun p => p.username == u)
    { username := u, post_count := grp.length,
      post_ids := grp.map Post.id,
      first_post := minTs grp, last_post := maxTs grp })

/-- The `flagged_accounts.update_one(..., upsert=True)` call: filter on
(username, campaign_id); `$setOnInsert` first_detected/campaign_id,
`$set` last_detected, `$inc` post_count, `$addToSet` posts. -/
def upsertFlagged (store : List FlaggedAccount) (cid : String)
    (g : AccountGroup) : List FlaggedAccount :=
  if store.any (fun f => f.username == g.username && f.campaign_id == cid) then
    store.map (fun f =>
      if f.username == g.username && f.campaign_id == cid then
        { f with last_detected := g.last_post,
                 post_count := f.post_count + g.post_count,
                 posts := addEach f.posts g.post_ids }
      else f)
  else
    store ++ [{ username := g.username, campaign_id := cid,
                first_detected := g.first_post, last_detected := g.last_post,
                post_count := g.post_count, posts := g.post_ids }]

/-- Function `detect_flagged_accounts`: aggregate the 1-hour window of
unprocessed posts, upsert each author with ≥ 2 posts, then
`update_many({campaign_id, processed: False}, {$set: {processed: True}})`
— note the update filter has no timestamp bound. -/
def detect_flagged_accounts (now : Nat) (cid : String) (db : DB) : DB :=
  let oneHourAgo := now - 3600
  let window := db.posts.filter (windowMatch cid oneHourAgo)
  let flaggedGroups := (groupByUsername window).filter
    (fun g => decide (2 ≤ g.post_count))
  let flagged := flaggedGroups.foldl (fun s g => upsertFlagged s cid g) db.flagged
  let posts := db.posts.map (fun p =>
    if p.campaign_id == cid && !p.processed then { p with processed := true } else p)
  { db with posts := posts, flagged := flagged }

/-! ## `detect_activity_surges` (`twitter_bot.py` lines 149–192) -/

/-- Day bucket of a timestamp: the `$dateToString "%Y-%m-%d"` grouping
key, with the date string replaced by its order-isomorphic day index. -/
def dayOf (t : Nat) : Nat := t / 86400

/-- The surge aggregation `$match` stage: campaign, `hashtags: {$all: pair}`,
trailing 7-day window. -/
def surgeMatch (cid : String) (sevenDaysAgo : Nat) (pair : List String)
    (p : Post) : Bool :=
  p.campaign_id == cid && pair.all (fun h => p.hashtags.contains h) &&
    decide (sevenDaysAgo ≤ p.timestamp)

/-- One `$group` output row of the surge aggregation (grouped by day). -/
structure DayGroup where
  day : Nat
  post_count : Nat
  unique_accounts : List String
deriving DecidableEq

instance : Inhabited DayGroup := ⟨⟨0, 0, []⟩⟩

/-- The `$group` stage keyed on the day with `$sum: 1` and
`$addToSet: "$username"`. -/
def groupByDay (ps : List Post) : List DayGroup :=
  (dedupFirst (ps.map (fun p => dayOf p.timestamp))).map (fun d =>
    let grp := ps.filter (fun p => dayOf p.timestamp == d)
    { day := d, post_count := grp.length,
      unique_accounts := dedupFirst (grp.map Post.username) })

/-- Insertion step of the `$sort: {_id: 1}` stage. -/
def insertByDay (g : DayGroup) : List DayGroup → List DayGroup
  | [] => [g]
  | h :: t => if g.day ≤ h.day then g :: h :: t else h :: insertByDay g t

/-- The `$sort: {_id: 1}` stage (ascending by day). -/
def sortByDay : List DayGroup → List DayGroup
  | [] => []
  | h :: t => insertByDay h (sortByDay t)

/-- The `hashtag_activity.update_one(..., upsert=True)` call
(`twitter_bot.py` lines 177–191) combined with the unique index on
`(hashtag_pair, date)` declared in `models.py` line 37.  The update
filter is `{campaign_id, hashtag_pair, date}`; when it matches nothing,
Mongo inserts a new document, and that insert raises `DuplicateKeyError`
if some document already holds the same `(hashtag_pair, date)` key. -/
def upsertActivity (store : List HashtagActivity) (cid : String)
    (pair : List String) (g : DayGroup) : Except Unit (List HashtagActivity) :=
  if store.any (fun a =>
      a.campaign_id == cid && a.hashtag_pair == pair && a.date == g.day) then
    .ok (store.map (fun a =>
      if a.campaign_id == cid && a.hashtag_pair == pair && a.date == g.day then
        { a with post_count := g.post_count,
                 unique_accounts := g.unique_accounts.length, is_surge := true }
      else a))
  else if store.any (fun a => a.hashtag_pair == pair && a.date == g.day) then
    .error ()
  else
    .ok (store ++ [{ campaign_id := cid, hashtag_pair := pair, date := g.day,
                     post_count := g.post_count,
                     unique_accounts := g.unique_accounts.length,
                     is_surge := true }])

/-- The per-pair loop of `detect_activity_surges`: build the sorted
daily series, compare the last two entries, upsert on a surge.  An
uncaught `DuplicateKeyError` aborts the remaining pairs. -/
def surgeLoop (now : Nat) (cid : String) :
    List (List String) → DB → Except Unit DB
  | [], db => .ok db
  | pair :: rest, db =>
    let sevenDaysAgo := now - 604800
    let series := sortByDay (groupByDay
      (db.posts.filter (surgeMatch cid sevenDaysAgo pair)))
    if 2 ≤ series.length then
      let current := series.getD (series.length - 1) default
      let previous := series.getD (series.length - 2) default
      if previous.post_count = 0 ∧ 20 ≤ current.post_count then
        match upsertActivity db.activity cid pair current with
        | .error e => .error e
        | .ok acts => surgeLoop now cid rest { db with activity := acts }
      else surgeLoop now cid rest db
    else surgeLoop now cid rest db

/-- Function `detect_activity_surges`: look up the campaign, then run the pair
loop over its configured hashtag pairs. -/
def detect_activity_surges (now : Nat) (cid : String) (db : DB) :
    Except Unit DB :=
  match db.campaigns.find? (fun c => c.id == cid) with
  | none => .ok db
  | some c => surgeLoop now cid c.hashtag_pairs db

/-! ## `search_hashtag_pairs` (`twitter_bot.py` lines 45–84)

The twscrape search client and the pool acquisition behind
`self.auth.get_api` are external capabilities here; they are modelled
by a `SearchEnv` oracle.  One search either yields a list of tweets,
raises the capacity-exhaustion error (`"No account available for
queue"`), or raises some other error. -/

/-- Outcome of one `self.api.search(query, limit=100)` call. -/
inductive SearchOutcome where
  | ok (tweets : List Tweet)
  | capacityError
  | otherError
deriving DecidableEq

/-- The API handle returned by pool acquisition; the code reads its
`username` attribute when rotating. -/
structure ApiHandle where
  username : String
deriving DecidableEq

/-- Oracle for the external capabilities used by the ingestion engine:
pool acquisition (exclude set ↦ handle) and search (handle, query ↦
outcome). -/
structure SearchEnv where
  acquire : List String → ApiHandle
  search : ApiHandle → String → SearchOutcome

/-- The mutable monitor state the ingestion loop touches:
`self.api`, `self.used_accounts`, `self.failed_accounts`. -/
structure EngineState where
  api : ApiHandle
  used : List String
  failed : List String
deriving DecidableEq

/-- Query construction: `" ".join(pair) + " lang:en"`. -/
def mkQuery (pair : List String) : String :=
  String.intercalate " " pair ++ " lang:en"

/-- The `for attempt in range(retries)` loop body for one hashtag pair:
on success break with the tweets; on the capacity error add the current
account to the used and failed sets, re-acquire excluding the used set
and retry; on any other error sleep and break with no tweets.  The fuel
is the remaining number of attempts (initially 3). -/
def attemptLoop (env : SearchEnv) (query : String) :
    Nat → EngineState → EngineState × List Tweet
  | 0, st => (st, [])
  | n + 1, st =>
    match env.search st.api query with
    | .ok tweets => (st, tweets)
    | .capacityError =>
      let used := addToSet st.used st.api.username
      let failed := addToSet st.failed st.api.username
      attemptLoop env query n { api := env.acquire used, used := used, failed := failed }
    | .otherError => (st, [])

/-- Function `search_hashtag_pairs`: iterate the pairs, each with 3 attempts,
concatenating all found tweets. -/
def search_hashtag_pairs (env : SearchEnv) (pairs : List (List String))
    (st : EngineState) : EngineState × List Tweet :=
  pairs.foldl (fun acc pair =>
    let r := attemptLoop env (mkQuery pair) 3 acc.1
    (r.1, acc.2 ++ r.2)) (st, [])

/-! ## `monitor_campaign` (`twitter_bot.py` lines 194–201) -/

/-- Function `monitor_campaign`: search the campaign's pairs; only when the
search returned at least one tweet, store them and run both detectors.
The surge detector may raise an uncaught `DuplicateKeyError`. -/
def monitor_campaign (env : SearchEnv) (fails : Tweet → Bool) (now : Nat)
    (campaign : Campaign) (db : DB) (st : EngineState) :
    Except Unit (DB × EngineState) :=
  let r := search_hashtag_pairs env campaign.hashtag_pairs st
  if r.2.isEmpty then .ok (db, r.1)
  else
    let posts := (store_tweets fails campaign.id r.2 db.posts).1
    let db1 := detect_flagged_accounts now campaign.id { db with posts := posts }
    match detect_activity_surges now campaign.id db1 with
    | .error e => .error e
    | .ok db2 => .ok (db2, r.1)

/-! ## `TwitterAuth` (`twitter_auth.py`)

The selenium login capability is modelled by the oracle
`loginOk : String → Bool` (whether `_get_cookies_via_selenium`
eventually succeeds for that username within its bounded retries). -/

/-- A document of the `twitter_accounts` collection.  A `password`
field is present only on documents written by the dashboard; the
upsert in `TwitterAuth.add_account` does not set one. -/
structure AuthAccount where
  username : String
  password : Option String
  is_active : Bool
deriving DecidableEq

/-- The state owned by `TwitterAuth`: the `twitter_accounts` collection,
the usernames registered in the twscrape `AccountsPool`, and the
in-memory `failed_accounts` set. -/
structure AuthState where
  accounts : List AuthAccount
  pool : List String
  failed : List String
deriving DecidableEq

/-- Function `reactivate_all_accounts`: `update_many({is_active: False},
{$set: {is_active: True}})`. -/
def reactivate_all_accounts (s : AuthState) : AuthState :=
  { s with accounts := s.accounts.map (fun a => { a with is_active := true }) }

/-- Function `disable_account`: `update_one({username}, {$set: {is_active: False}})`
(usernames are unique, so the single matching document is updated). -/
def disable_account (u : String) (s : AuthState) : AuthState :=
  { s with accounts := s.accounts.map (fun a =>
      if a.username == u then { a with is_active := false } else a) }

/-- Function `TwitterAuth.add_account` (`twitter_auth.py` lines 217–245): selenium
login (it raises when the password is missing or the oracle says the
login fails, after its bounded retries, having added the username to the
failed set); on success delete+add the account in the pool and upsert the
`twitter_accounts` document (`$set` of `account_data`, which contains no
`password` field); on failure disable the account.  Returns the updated
state and the Boolean result. -/
def add_account (loginOk : String → Bool) (u : String) (pw : Option String)
    (s : AuthState) : AuthState × Bool :=
  if pw.isSome && loginOk u then
    let pool := s.pool.erase u ++ [u]
    let accounts :=
      if s.accounts.any (fun a => a.username == u) then
        s.accounts.map (fun a =>
          if a.username == u then { a with is_active := true } else a)
      else s.accounts ++ [{ username := u, password := none, is_active := true }]
    ({ s with pool := pool, accounts := accounts }, true)
  else
    let s := { s with failed := addToSet s.failed u }
    (disable_account u s, false)

/-- The per-account body of `initialize_accounts`' loop over the active
snapshot: skip accounts without a stored password (the `acc["password"]`
`KeyError` is caught), add the username to the pool on a successful
login, record it in the failed set otherwise (the raised login error is
caught by the loop). -/
def init_accounts_loop (loginOk : String → Bool) :
    List AuthAccount → AuthState → AuthState
  | [], s => s
  | a :: as, s =>
    match a.password with
    | none => init_accounts_loop loginOk as s
    | some _ =>
      if loginOk a.username then
        init_accounts_loop loginOk as { s with pool := addToSet s.pool a.username }
      else
        init_accounts_loop loginOk as { s with failed := addToSet s.failed a.username }

/-- Function `initialize_accounts` (`twitter_auth.py` lines 264–279): reactivate
everything, then try to log every active account into the pool. -/
def init_accounts (loginOk : String → Bool) (s : AuthState) : AuthState :=
  let s1 := reactivate_all_accounts s
  init_accounts_loop loginOk (s1.accounts.filter (fun a => a.is_active)) s1

/-- Function `TwitterAuth.get_api` (`twitter_auth.py` lines 281–308).  When the
active set is empty: reactivate, run `initialize_accounts`, sleep — but
the local `active_accounts` list is not re-read, so the exclude/prefer
filters and the per-account `add_account` loop below run over the stale
empty list.  Returns the updated state and the pool the returned
`API(self.pool)` handle is bound to. -/
def get_api (loginOk : String → Bool) (exclude preferred : List String)
    (s : AuthState) : AuthState × List String :=
  let active := s.accounts.filter (fun a => a.is_active)
  let s1 := if active.isEmpty then
      init_accounts loginOk (reactivate_all_accounts s)
    else s
  let active := active.filter (fun a => !(exclude.contains a.username))
  let active := (active.filter (fun a => preferred.contains a.username)) ++
    (active.filter (fun a => !(preferred.contains a.username)))
  let s2 := active.foldl (fun acc a => (add_account loginOk a.username a.password acc).1) s1
  (s2, s2.pool)

/-! ## `check_for_new_accounts` (`twitter_bot.py` lines 28–39) -/

/-- A document of the `accounts` collection — the collection
`check_for_new_accounts` queries.  No writer in this repository ever
inserts into it or sets a `created_at` field; the field is therefore
optional. -/
structure AccountDoc where
  username : String
  created_at : Option Nat
deriving DecidableEq

/-- The collections visible to the monitor's account-checking path:
the `accounts` collection and the `TwitterAuth`-owned state. -/
structure MonitorDB where
  accounts : List AccountDoc
  auth : AuthState
deriving DecidableEq

/-- The monitor's own mutable state (`twitter_bot.py` lines 20–22 and
`self.api`, reduced to the pool its handle is bound to). -/
structure MonitorState where
  last_account_check : Nat
  failed_accounts : List String
  used_accounts : List String
  api : List String
deriving DecidableEq

/-- Function `initialize_api`: `self.api = await self.auth.get_api(
exclude_accounts=self.used_accounts)`. -/
def init_api (loginOk : String → Bool) (db : MonitorDB) (st : MonitorState) :
    MonitorDB × MonitorState :=
  let r := get_api loginOk st.used_accounts [] db.auth
  ({ db with auth := r.1 }, { st with api := r.2 })

/-- Function `check_for_new_accounts`: query
`db.accounts.find({"created_at": {"$gt": self.last_account_check}})`
(documents without the field never match), bump the check time, and if
anything matched clear both sets and reacquire the pool. -/
def check_for_new_accounts (loginOk : String → Bool) (now : Nat)
    (db : MonitorDB) (st : MonitorState) : MonitorDB × MonitorState :=
  let newAccounts := db.accounts.filter (fun a =>
    match a.created_at with
    | some t => decide (st.last_account_check < t)
    | none => false)
  let st1 := { st with last_account_check := now }
  if newAccounts.isEmpty then (db, st1)
  else
    init_api loginOk db
      { st1 with failed_accounts := [], used_accounts := [] }

/-- Enrolling an account through the pool manager's add-account path
(`TwitterAuth.add_account`), seen at the level of the shared database:
it touches only the `twitter_accounts` collection and the pool. -/
def enroll_account (loginOk : String → Bool) (u : String) (pw : Option String)
    (db : MonitorDB) : MonitorDB :=
  { db with auth := (add_account loginOk u pw db.auth).1 }

/-! ## The polling loop `run` (`twitter_bot.py` lines 210–234)

The loop's control flow: `while True: try: <cycle body> except: log;
sleep(60); initialize_api()`.  The body of cycle `i` raising is the
oracle `bodyFails i`; the recovery `initialize_api` call raising is the
oracle `recoveryFails i`.  An exception raised inside the `except`
handler is not caught by anything and escapes the `while` loop.  The
fuel argument bounds how many cycles we observe. -/

/-- Observed status of the polling loop after finitely many cycles. -/
inductive RunResult where
  | running
  | crashed (cycle : Nat)
deriving DecidableEq

/-- The `while True` loop of `run`, observed for `fuel` cycles starting
at cycle index `i`. -/
def runLoop (bodyFails recoveryFails : Nat → Bool) :
    Nat → Nat → RunResult
  | 0, _ => .running
  | fuel + 1, i =>
    if bodyFails i then
      if recoveryFails i then .crashed i
      else runLoop bodyFails recoveryFails fuel (i + 1)
    else runLoop bodyFails recoveryFails fuel (i + 1)

/-! ## Shared helper lemmas -/

/-- Adding an element to a list-as-set makes it a member. -/
lemma mem_addToSet_self {α : Type} [BEq α] [LawfulBEq α] (l : List α) (a : α) :
    a ∈ addToSet l a := by
  unfold addToSet
  by_cases h : l.contains a
  · rw [if_pos h]; exact List.elem_iff.mp h
  · rw [if_neg h]; simp

/-- Adding an element to a list-as-set keeps existing members. -/
lemma mem_addToSet_of_mem {α : Type} [BEq α] {l : List α} {b : α} (a : α)
    (h : b ∈ l) : b ∈ addToSet l a := by
  unfold addToSet
  by_cases hc : l.contains a
  · rw [if_pos hc]; exact h
  · rw [if_neg hc]; exact List.mem_append_left _ h

/-! ## Claim C1 — the surge rule and its zero-previous-day example

The day series is produced by a Mongo `$group` over existing posts, so
every entry of the series counts at least one post: a day with zero
posts produces no entry at all.  The spec's example series
`[{day1: 0 posts}, {day2: 25 posts}]` therefore cannot be produced; on
the corresponding posts (25 posts on day 10, none on day 9) the series
is the single entry `{day 10: 25}`, no comparison happens, and no
HashtagActivity record is written. -/

/-- The 25 posts of day 10 for the pair `["x", "y"]` of campaign `c`
(timestamps `864000 + i`, all inside the trailing 7-day window);
day 9 has zero posts. -/
def c1posts : List Post := (List.range 25).map (fun i =>
  { id := i, campaign_id := "c", username := "u", hashtags := ["x", "y"],
    caption := "", timestamp := 864000 + i, likes := 0, comments := 0,
    retweets := 0, url := "", processed := false })

/-- The database state of the C1 scenario: the posts above, an empty
`hashtag_activity` collection, and the campaign `c` configured with the
single pair `["x", "y"]`; `now = 950400` (day 11), so the 7-day window
starts at `345600` (day 4). -/
def c1db : DB :=
  { posts := c1posts, flagged := [], activity := [],
    campaigns := [{ id := "c", name := "n", hashtag_pairs := [["x", "y"]],
                    active := true }] }

/-- C1: on the spec's own surge example — a day with 0 posts followed by
a day with 25 posts — the day series produced by the aggregation is the
single entry for the 25-post day (the zero-post day yields no group),
so the detector performs no comparison and writes no HashtagActivity
record: `detect_activity_surges` returns the database unchanged with an
empty `hashtag_activity` collection, contradicting the claimed surge
record for day 2. -/
theorem c1_surge_rule_never_fires_on_zero_day_series :
    sortByDay (groupByDay (c1db.posts.filter (surgeMatch "c" 345600 ["x", "y"]))) =
      [{ day := 10, post_count := 25, unique_accounts := ["u"] }] ∧
    detect_activity_surges 950400 "c" c1db = .ok c1db ∧
    c1db.activity = [] := by
  refine ⟨by decide, rfl, rfl⟩

/-! ## Claim C2 — the processed barrier of `detect_flagged_accounts` -/

/-- A post of campaign `c` whose timestamp (0) lies far outside the
trailing 1-hour window at `now = 100000`. -/
def c2post : Post :=
  { id := 1, campaign_id := "c", username := "a", hashtags := ["x", "y"],
    caption := "", timestamp := 0, likes := 0, comments := 0, retweets := 0,
    url := "u1", processed := false }

/-- Database containing only the stale unprocessed post above. -/
def c2db : DB := { posts := [c2post], flagged := [], activity := [], campaigns := [] }

/-- C2 (counterexample): the stale post is matched by no window query
(the window filter over the posts is empty), yet after one detection
run it is marked processed — consumed without ever being evaluated
(the flagged store stays empty), refuting the claim that posts not
matched by the window query are not consumed without being evaluated. -/
theorem c2_windowless_consume_counterexample :
    c2db.posts.filter (windowMatch "c" (100000 - 3600)) = [] ∧
    (detect_flagged_accounts 100000 "c" c2db).posts =
      [{ c2post with processed := true }] ∧
    (detect_flagged_accounts 100000 "c" c2db).flagged = [] := by decide

/-- C2 (amended): after one detection run for a campaign, every post of
that campaign in the store is processed — in particular every post
matched by the window query, but equally every unprocessed post outside
the window, since the processed-update filter has no timestamp bound —
while posts of other campaigns are untouched. -/
theorem c2_processed_barrier_amended (now : Nat) (cid : String) (db : DB) :
    (∀ p ∈ (detect_flagged_accounts now cid db).posts,
        p.campaign_id = cid → p.processed = true) ∧
    (∀ p ∈ db.posts, p.campaign_id ≠ cid →
        p ∈ (detect_flagged_accounts now cid db).posts) := by
  constructor
  · intro p hp hcid
    simp only [detect_flagged_accounts, List.mem_map] at hp
    obtain ⟨q, hq, rfl⟩ := hp
    have hcq : q.campaign_id = cid := by
      cases hc : (q.campaign_id == cid && !q.processed) <;> simpa [hc] using hcid
    cases hqp : q.processed <;> simp [hcq, hqp]
  · intro p hp hne
    simp only [detect_flagged_accounts, List.mem_map]
    refine ⟨p, hp, ?_⟩
    have hfalse : (p.campaign_id == cid && !p.processed) = false := by simp [hne]
    simp [hfalse]

/-- A fresh unprocessed post of campaign `c` inside the window at
`now = 100000`. -/
def c2wpostC : Post :=
  { id := 1, campaign_id := "c", username := "a", hashtags := ["x"],
    caption := "", timestamp := 99000, likes := 0, comments := 0, retweets := 0,
    url := "w1", processed := false }

/-- An unprocessed post of the unrelated campaign `d`. -/
def c2wpostD : Post :=
  { id := 2, campaign_id := "d", username := "b", hashtags := ["x"],
    caption := "", timestamp := 99000, likes := 0, comments := 0, retweets := 0,
    url := "w2", processed := false }

/-- Database with one post of campaign `c` and one of campaign `d`. -/
def c2wdb : DB :=
  { posts := [c2wpostC, c2wpostD], flagged := [], activity := [], campaigns := [] }

/-- C2 (witness): the amended theorem applied at a concrete database —
the campaign-`c` post ends up processed, and the campaign-`d` post
survives unchanged. -/
theorem c2_processed_barrier_amended_witness :
    ({ c2wpostC with processed := true } : Post).processed = true ∧
    c2wpostD ∈ (detect_flagged_accounts 100000 "c" c2wdb).posts :=
  ⟨(c2_processed_barrier_amended 100000 "c" c2wdb).1
      { c2wpostC with processed := true } (by decide) (by decide),
    (c2_processed_barrier_amended 100000 "c" c2wdb).2 c2wpostD (by decide) (by decide)⟩

/-! ## Claim C3 — detection of newly enrolled accounts -/

/-- Initial database: the `accounts` collection and the
`twitter_accounts` collection are both empty. -/
def c3db0 : MonitorDB :=
  { accounts := [], auth := { accounts := [], pool := [], failed := [] } }

/-- Monitor state before the cycle, with nonempty failed/used sets. -/
def c3st0 : MonitorState :=
  { last_account_check := 0, failed_accounts := ["z"], used_accounts := ["w"],
    api := [] }

/-- The database after enrolling account `u` (with a working password)
through `TwitterAuth.add_account`. -/
def c3db1 : MonitorDB := enroll_account (fun _ => true) "u" (some "pw") c3db0

/-- C3: enrolling an account through the pool manager's add-account path
stores it in the `twitter_accounts` collection (and the pool) but never
touches the `accounts` collection that `check_for_new_accounts` queries
for a `created_at` field, so the subsequent check detects nothing: the
failed/used sets are not cleared and the pool is not reacquired — only
the check timestamp moves.  This contradicts the claim that accounts
enrolled through the add-account path are detected by the check. -/
theorem c3_new_account_check_misses_enrolled_accounts :
    c3db1.auth.accounts = [{ username := "u", password := none, is_active := true }] ∧
    c3db1.auth.pool = ["u"] ∧
    c3db1.accounts = [] ∧
    check_for_new_accounts (fun _ => true) 100 c3db1 c3st0 =
      (c3db1, { c3st0 with last_account_check := 100 }) ∧
    (check_for_new_accounts (fun _ => true) 100 c3db1 c3st0).2.failed_accounts = ["z"] ∧
    (check_for_new_accounts (fun _ => true) 100 c3db1 c3st0).2.used_accounts = ["w"] := by
  refine ⟨rfl, rfl, rfl, rfl, rfl, rfl⟩

/-! ## Claim C4 — the polling loop never terminates on an error -/

/-- C4 (counterexample): if the cycle body raises and the recovery
re-initialization also raises, the exception raised inside the `except`
handler escapes the `while` loop and the loop terminates — one observed
cycle suffices. -/
theorem c4_recovery_failure_crashes_loop :
    runLoop (fun _ => true) (fun _ => true) 1 0 = .crashed 0 := by decide

/-- C4 (amended): as long as the recovery re-initialization itself never
raises, every uncaught exception of a cycle body is caught by the
top-level handler and the loop keeps running for any number of observed
cycles; an exception during the recovery re-initialization, however, is
fatal (see the counterexample). -/
theorem c4_loop_runs_forever_amended (bodyFails recoveryFails : Nat → Bool)
    (h : ∀ i, recoveryFails i = false) :
    ∀ fuel i, runLoop bodyFails recoveryFails fuel i = .running := by
  intro fuel
  induction fuel with
  | zero => intro i; rfl
  | succ n ih =>
    intro i
    cases hb : bodyFails i <;> simp [runLoop, hb, h i, ih]

/-- C4 (witness): a loop whose body raises on every cycle but whose
recovery always succeeds is still running after 5 cycles. -/
theorem c4_loop_runs_forever_amended_witness :
    runLoop (fun _ => true) (fun _ => false) 5 0 = .running :=
  c4_loop_runs_forever_amended (fun _ => true) (fun _ => false) (fun _ => rfl) 5 0

/-! ## Claim C5 — reactivation recovery in `get_api` -/

/-- The accounts collection of `init_accounts_loop` is never modified:
the loop only touches the pool and the failed set. -/
lemma init_accounts_loop_accounts (loginOk : String → Bool)
    (l : List AuthAccount) (s : AuthState) :
    (init_accounts_loop loginOk l s).accounts = s.accounts := by
  induction l generalizing s with
  | nil => rfl
  | cons a as ih =>
    cases hp : a.password with
    | none => simp [init_accounts_loop, hp, ih]
    | some pw =>
      by_cases hl : loginOk a.username <;> simp [init_accounts_loop, hp, hl, ih]

/-- Pool membership is preserved by `init_accounts_loop`. -/
lemma init_accounts_loop_pool_mono (loginOk : String → Bool)
    (l : List AuthAccount) (s : AuthState) {u : String} (h : u ∈ s.pool) :
    u ∈ (init_accounts_loop loginOk l s).pool := by
  induction l generalizing s with
  | nil => exact h
  | cons a as ih =>
    cases hp : a.password with
    | none =>
      simp only [init_accounts_loop, hp]
      exact ih _ h
    | some pw =>
      by_cases hl : loginOk a.username
      · simp only [init_accounts_loop, hp, hl, if_true]
        exact ih _ (mem_addToSet_of_mem _ h)
      · simp only [init_accounts_loop, hp, hl, Bool.false_eq_true, if_false]
        exact ih _ h

/-- An account of the snapshot that has a stored password and whose
login succeeds ends up in the pool after `init_accounts_loop`. -/
lemma init_accounts_loop_pool_mem (loginOk : String → Bool)
    (l : List AuthAccount) (s : AuthState) {a : AuthAccount}
    (ha : a ∈ l) (hpw : a.password.isSome = true) (hl : loginOk a.username = true) :
    a.username ∈ (init_accounts_loop loginOk l s).pool := by
  induction l generalizing s with
  | nil => cases ha
  | cons b bs ih =>
    rcases List.mem_cons.mp ha with rfl | hmem
    · cases hp : a.password with
      | none => rw [hp] at hpw; cases hpw
      | some pw =>
        simp only [init_accounts_loop, hp, hl, if_true]
        exact init_accounts_loop_pool_mono _ _ _ (mem_addToSet_self _ _)
    · cases hp : b.password with
      | none =>
        simp only [init_accounts_loop, hp]
        exact ih _ hmem
      | some pw =>
        by_cases hb : loginOk b.username
        · simp only [init_accounts_loop, hp, hb, if_true]
          exact ih _ hmem
        · simp only [init_accounts_loop, hp, hb, Bool.false_eq_true, if_false]
          exact ih _ hmem

/-- After `init_accounts` every stored account is active: the function
opens with the reactivation sweep and its loop never deactivates. -/
lemma init_accounts_all_active (loginOk : String → Bool) (s0 : AuthState) :
    ∀ b ∈ (init_accounts loginOk s0).accounts, b.is_active = true := by
  intro b hb
  simp only [init_accounts, init_accounts_loop_accounts, reactivate_all_accounts,
    List.mem_map] at hb
  obtain ⟨x, _, rfl⟩ := hb
  rfl

/-- Any stored account with a password and a succeeding login is in the
pool after `init_accounts` (the reactivation sweep makes it active, so
the loop reaches it). -/
lemma init_accounts_pool_mem (loginOk : String → Bool) (s0 : AuthState)
    {a : AuthAccount} (ha : a ∈ s0.accounts) (pw : String)
    (hpw : a.password = some pw) (hl : loginOk a.username = true) :
    a.username ∈ (init_accounts loginOk s0).pool := by
  simp only [init_accounts]
  have hflt : ((reactivate_all_accounts s0).accounts.filter (fun a => a.is_active)) =
      (reactivate_all_accounts s0).accounts := by
    rw [List.filter_eq_self]
    intro x hx
    simp only [reactivate_all_accounts, List.mem_map] at hx
    obtain ⟨y, _, rfl⟩ := hx
    rfl
  rw [hflt]
  have hmem : ({ a with is_active := true } : AuthAccount) ∈
      (reactivate_all_accounts s0).accounts := by
    simp only [reactivate_all_accounts, List.mem_map]
    exact ⟨a, ha, rfl⟩
  exact init_accounts_loop_pool_mem loginOk _ _ (a := { a with is_active := true })
    hmem (by simp [hpw]) hl

/-- C5: when `get_api` is called with no active account, it first runs
the reactivation sweep — afterwards every stored account is active —
and then retries acquisition through `initialize_accounts`: any stored
account with credentials and a succeeding login ends up in the pool the
returned API handle is bound to, so empty capacity is returned only
when that retry also yields no usable account. -/
theorem c5_reactivation_recovery (loginOk : String → Bool)
    (exclude preferred : List String) (s : AuthState)
    (hempty : s.accounts.filter (fun a => a.is_active) = []) :
    (∀ b ∈ (get_api loginOk exclude preferred s).1.accounts, b.is_active = true) ∧
    (∀ a ∈ s.accounts, ∀ pw, a.password = some pw → loginOk a.username = true →
      a.username ∈ (get_api loginOk exclude preferred s).2) := by
  have hres : get_api loginOk exclude preferred s =
      (init_accounts loginOk (reactivate_all_accounts s),
       (init_accounts loginOk (reactivate_all_accounts s)).pool) := by
    simp [get_api, hempty]
  constructor
  · intro b hb
    rw [hres] at hb
    exact init_accounts_all_active loginOk _ b hb
  · intro a ha pw hpw hl
    rw [hres]
    exact init_accounts_pool_mem loginOk _ (a := { a with is_active := true })
      (by simp only [reactivate_all_accounts, List.mem_map]; exact ⟨a, ha, rfl⟩)
      pw hpw hl

/-- Pool state with a single inactive account holding credentials — a
fleet-wide lockout. -/
def c5ws : AuthState :=
  { accounts := [{ username := "a", password := some "pw", is_active := false }],
    pool := [], failed := [] }

/-- C5 (witness): acquiring from the locked-out state reactivates the
account and puts it in the returned pool. -/
theorem c5_reactivation_recovery_witness :
    ({ username := "a", password := some "pw", is_active := true } : AuthAccount).is_active
        = true ∧
    "a" ∈ (get_api (fun _ => true) [] [] c5ws).2 :=
  ⟨(c5_reactivation_recovery (fun _ => true) [] [] c5ws (by decide)).1
      { username := "a", password := some "pw", is_active := true } (by decide),
    (c5_reactivation_recovery (fun _ => true) [] [] c5ws (by decide)).2
      { username := "a", password := some "pw", is_active := false } (by decide)
      "pw" rfl rfl⟩

/-! ## Claim C6 — rotation on capacity exhaustion -/

/-- Membership in the used set is preserved through the attempt loop. -/
lemma attemptLoop_used_mono (env : SearchEnv) (q : String) (n : Nat)
    (st : EngineState) {u : String} (h : u ∈ st.used) :
    u ∈ (attemptLoop env q n st).1.used := by
  induction n generalizing st with
  | zero => exact h
  | succ m ih =>
    cases hs : env.search st.api q with
    | ok tweets => simpa [attemptLoop, hs] using h
    | capacityError =>
      simp only [attemptLoop, hs]
      exact ih _ (mem_addToSet_of_mem _ h)
    | otherError => simpa [attemptLoop, hs] using h

/-- Membership in the failed set is preserved through the attempt loop. -/
lemma attemptLoop_failed_mono (env : SearchEnv) (q : String) (n : Nat)
    (st : EngineState) {u : String} (h : u ∈ st.failed) :
    u ∈ (attemptLoop env q n st).1.failed := by
  induction n generalizing st with
  | zero => exact h
  | succ m ih =>
    cases hs : env.search st.api q with
    | ok tweets => simpa [attemptLoop, hs] using h
    | capacityError =>
      simp only [attemptLoop, hs]
      exact ih _ (mem_addToSet_of_mem _ h)
    | otherError => simpa [attemptLoop, hs] using h

/-- If every handle fails with capacity exhaustion, the attempt loop
yields no tweets for any fuel. -/
lemma attemptLoop_allCapacity (env : SearchEnv) (q : String)
    (hall : ∀ h, env.search h q = .capacityError) :
    ∀ n st, (attemptLoop env q n st).2 = [] := by
  intro n
  induction n with
  | zero => intro st; rfl
  | succ m ih =>
    intro st
    simp only [attemptLoop, hall st.api]
    exact ih _

/-- A tweet returned by the one usable account of the C6 scenario. -/
def c6tweet : Tweet :=
  { username := "v", hashtags := ["x", "y"], caption := "", timestamp := 0,
    likes := 0, comments := 0, retweets := 0, url := "u" }

/-- Environment with four accounts: acquisition returns the first
account not excluded; searching through `a1`–`a3` hits capacity
exhaustion, while `a4` would return a tweet. -/
def c6env : SearchEnv :=
  { acquire := fun ex =>
      match ["a1", "a2", "a3", "a4"].find? (fun u => !(ex.contains u)) with
      | some u => { username := u }
      | none => { username := "" },
    search := fun h _ =>
      if h.username == "a4" then .ok [c6tweet] else .capacityError }

/-- Ingestion state starting on the `a1` handle with empty sets. -/
def c6st : EngineState := { api := { username := "a1" }, used := [], failed := [] }

/-- C6 (counterexample): after three capacity-exhaustion rotations
(`a1`, `a2`, `a3`) the group is abandoned with no tweets, although
re-acquiring the pool excluding the used set at that point returns the
usable client `a4`, whose search succeeds — so the rotation does not
repeat until the pool returns no usable client, refuting the claim. -/
theorem c6_rotation_bounded_counterexample :
    (search_hashtag_pairs c6env [["x", "y"]] c6st).2 = [] ∧
    (search_hashtag_pairs c6env [["x", "y"]] c6st).1.used = ["a1", "a2", "a3"] ∧
    c6env.search
      (c6env.acquire (search_hashtag_pairs c6env [["x", "y"]] c6st).1.used)
      (mkQuery ["x", "y"]) = .ok [c6tweet] := by
  refine ⟨rfl, rfl, rfl⟩

/-- C6 (amended): on a capacity-exhaustion error the exhausted account
is added to both the used and failed sets and the pool is re-acquired
excluding the used set before the same group is retried; the rotation
is bounded by the fixed limit of three search attempts per group (not
by pool exhaustion), so if every acquired client keeps hitting capacity
exhaustion the group yields no tweets; any other search error abandons
the group at once, leaving the state unchanged, without retry. -/
theorem c6_rotation_amended (env : SearchEnv) (q : String) (st : EngineState) :
    (env.search st.api q = .otherError → attemptLoop env q 3 st = (st, [])) ∧
    (env.search st.api q = .capacityError →
      attemptLoop env q 3 st =
        attemptLoop env q 2
          { api := env.acquire (addToSet st.used st.api.username),
            used := addToSet st.used st.api.username,
            failed := addToSet st.failed st.api.username } ∧
      st.api.username ∈ (attemptLoop env q 3 st).1.used ∧
      st.api.username ∈ (attemptLoop env q 3 st).1.failed) ∧
    ((∀ h, env.search h q = .capacityError) → (attemptLoop env q 3 st).2 = []) := by
  refine ⟨?_, ?_, ?_⟩
  · intro h
    show attemptLoop env q (2 + 1) st = (st, [])
    simp [attemptLoop, h]
  · intro h
    have hstep : attemptLoop env q 3 st =
        attemptLoop env q 2
          { api := env.acquire (addToSet st.used st.api.username),
            used := addToSet st.used st.api.username,
            failed := addToSet st.failed st.api.username } := by
      show attemptLoop env q (2 + 1) st = _
      simp [attemptLoop, h]
    refine ⟨hstep, ?_, ?_⟩
    · rw [hstep]
      exact attemptLoop_used_mono _ _ _ _ (mem_addToSet_self _ _)
    · rw [hstep]
      exact attemptLoop_failed_mono _ _ _ _ (mem_addToSet_self _ _)
  · intro hall
    exact attemptLoop_allCapacity env q hall 3 st

/-- Environment every search of which raises a non-capacity error. -/
def c6wenv : SearchEnv :=
  { acquire := fun _ => { username := "a" },
    search := fun _ _ => .otherError }

/-- Ingestion state for the C6 witness. -/
def c6wst : EngineState := { api := { username := "a" }, used := [], failed := [] }

/-- C6 (witness): the amended theorem applied where the first search
raises a non-capacity error — the group is abandoned at once with the
state unchanged. -/
theorem c6_rotation_amended_witness :
    attemptLoop c6wenv (mkQuery ["x", "y"]) 3 c6wst = (c6wst, []) :=
  (c6_rotation_amended c6wenv (mkQuery ["x", "y"]) c6wst).1 rfl

/-! ## Claim C7 — the flagging threshold -/

/-- The single window post of account `A` (post id 1). -/
def c7postA (t : Nat) : Post :=
  { id := 1, campaign_id := "c", username := "A", hashtags := ["x"],
    caption := "", timestamp := t, likes := 0, comments := 0, retweets := 0,
    url := "uA", processed := false }

/-- The first window post of account `B` (post id 2). -/
def c7postB1 (t : Nat) : Post :=
  { id := 2, campaign_id := "c", username := "B", hashtags := ["x"],
    caption := "", timestamp := t, likes := 0, comments := 0, retweets := 0,
    url := "uB1", processed := false }

/-- The second window post of account `B` (post id 3). -/
def c7postB2 (t : Nat) : Post :=
  { id := 3, campaign_id := "c", username := "B", hashtags := ["x"],
    caption := "", timestamp := t, likes := 0, comments := 0, retweets := 0,
    url := "uB2", processed := false }

/-- Database with exactly 1 unprocessed post by `A` and 2 by `B` for
campaign `c`, and an empty flagged store. -/
def c7db (t1 t2 t3 : Nat) : DB :=
  { posts := [c7postA t1, c7postB1 t2, c7postB2 t3], flagged := [],
    activity := [], campaigns := [] }

/-- C7: with exactly 1 unprocessed in-window post by `A` and 2 by `B`
(timestamps `t2 ≤ t3`), one detection cycle produces a flagged store
containing exactly one FlaggedAccount — for `B` — with
`post_count = 2`, a contributing-posts set of size 2 (ids 2 and 3),
`first_detected = t2` (the earlier of B's timestamps) and
`last_detected = t3` (the later); no record is created for `A`. -/
theorem c7_flagging_threshold (now t1 t2 t3 : Nat)
    (h1 : now - 3600 ≤ t1) (h2 : now - 3600 ≤ t2) (h3 : now - 3600 ≤ t3)
    (h23 : t2 ≤ t3) :
    (detect_flagged_accounts now "c" (c7db t1 t2 t3)).flagged =
      [{ username := "B", campaign_id := "c", first_detected := t2,
         last_detected := t3, post_count := 2, posts := [2, 3] }] := by
  simp [detect_flagged_accounts, c7db, windowMatch, c7postA, c7postB1, c7postB2,
        groupByUsername, dedupFirst, addToSet, upsertFlagged, minTs, maxTs,
        h1, h2, h3, Nat.min_eq_left h23, Nat.max_eq_right h23]

/-- C7 (witness): the threshold theorem at `now = 7200` with timestamps
4000, 4100, 4200. -/
theorem c7_flagging_threshold_witness :
    (detect_flagged_accounts 7200 "c" (c7db 4000 4100 4200)).flagged =
      [{ username := "B", campaign_id := "c", first_detected := 4100,
         last_detected := 4200, post_count := 2, posts := [2, 3] }] :=
  c7_flagging_threshold 7200 4000 4100 4200 (by decide) (by decide) (by decide)
    (by decide)

/-! ## Claim C8 — URL deduplication and per-post error isolation -/

/-- Number of stored posts carrying a given URL. -/
def countUrl (posts : List Post) (u : String) : Nat :=
  posts.countP (fun p => p.url == u)

/-- The URL-existence check agrees with a positive URL count. -/
lemma urlExists_iff (posts : List Post) (u : String) :
    urlExists posts u = true ↔ 0 < countUrl posts u := by
  simp [urlExists, countUrl, List.any_eq_true, List.countP_pos_iff]

/-- Once a URL is present, `store_tweets` never changes how many posts
carry it: a tweet with that URL hits the unique index and is skipped. -/
lemma countUrl_store_tweets (fails : Tweet → Bool) (cid : String)
    (tweets : List Tweet) (posts : List Post) (u : String)
    (h : 0 < countUrl posts u) :
    countUrl (store_tweets fails cid tweets posts).1 u = countUrl posts u := by
  induction tweets generalizing posts with
  | nil => rfl
  | cons t rest ih =>
    by_cases hd : urlExists posts t.url
    · simp [store_tweets, hd, ih posts h]
    · by_cases hf : fails t
      · simp [store_tweets, hd, hf, ih posts h]
      · have htu : t.url ≠ u := by
          intro he
          exact hd ((urlExists_iff posts t.url).mpr (by rw [he]; exact h))
        have happ : countUrl (posts ++ [mkPost cid posts.length t]) u =
            countUrl posts u := by
          simp [countUrl, List.countP_append, List.countP_cons, mkPost, htu]
        have h' : 0 < countUrl (posts ++ [mkPost cid posts.length t]) u := by
          rw [happ]; exact h
        simp only [store_tweets, hd, hf, Bool.false_eq_true, if_false]
        rw [ih _ h', happ]

/-- C8: when the store holds exactly one post with tweet `t`'s URL,
running the batch starting with `t` still leaves exactly one post with
that URL — the duplicate is skipped silently, the batch result (store
and inserted count) being exactly that of the remaining tweets; and a
tweet `tbad` whose insert fails with a non-duplicate storage error is
likewise skipped without aborting the remainder of the batch. -/
theorem c8_dedup_and_error_isolation (fails : Tweet → Bool) (cid : String)
    (t tbad : Tweet) (rest : List Tweet) (posts : List Post)
    (hdup : countUrl posts t.url = 1)
    (hnew : urlExists posts tbad.url = false) (hfail : fails tbad = true) :
    countUrl (store_tweets fails cid (t :: rest) posts).1 t.url = 1 ∧
    store_tweets fails cid (t :: rest) posts = store_tweets fails cid rest posts ∧
    store_tweets fails cid (tbad :: rest) posts = store_tweets fails cid rest posts := by
  have hex : urlExists posts t.url = true :=
    (urlExists_iff posts t.url).mpr (by omega)
  refine ⟨?_, ?_, ?_⟩
  · rw [show store_tweets fails cid (t :: rest) posts = store_tweets fails cid rest posts
        from by simp [store_tweets, hex]]
    rw [countUrl_store_tweets fails cid rest posts t.url (by omega), hdup]
  · simp [store_tweets, hex]
  · simp [store_tweets, hnew, hfail]

/-- A store already holding the post with URL `u1`. -/
def c8posts : List Post :=
  [{ id := 0, campaign_id := "c", username := "a", hashtags := ["x"],
     caption := "", timestamp := 0, likes := 0, comments := 0, retweets := 0,
     url := "u1", processed := false }]

/-- A tweet whose URL `u1` duplicates the stored post. -/
def c8t : Tweet :=
  { username := "a", hashtags := ["x"], caption := "", timestamp := 5,
    likes := 0, comments := 0, retweets := 0, url := "u1" }

/-- A fresh tweet (URL `u2`) whose insert raises a non-duplicate error. -/
def c8tbad : Tweet :=
  { username := "b", hashtags := ["x"], caption := "", timestamp := 6,
    likes := 0, comments := 0, retweets := 0, url := "u2" }

/-- Storage-error oracle: the insert of URL `u2` fails. -/
def c8fails (tw : Tweet) : Bool := tw.url == "u2"

/-- C8 (witness): the deduplication theorem at the concrete store and
tweets above (empty remainder of the batch). -/
theorem c8_dedup_and_error_isolation_witness :
    countUrl (store_tweets c8fails "c" [c8t] c8posts).1 c8t.url = 1 ∧
    store_tweets c8fails "c" [c8t] c8posts = store_tweets c8fails "c" [] c8posts ∧
    store_tweets c8fails "c" [c8tbad] c8posts = store_tweets c8fails "c" [] c8posts :=
  c8_dedup_and_error_isolation c8fails "c" c8t c8tbad [] c8posts (by decide)
    (by decide) (by decide)

/-! ## Claim C9 — uniqueness of `hashtag_activity` across campaigns -/

/-- The surging day group of the C9 scenario. -/
def c9group : DayGroup :=
  { day := 19870, post_count := 25, unique_accounts := ["a", "b"] }

/-- The record the first campaign's surge upsert writes. -/
def c9rec : HashtagActivity :=
  { campaign_id := "c1", hashtag_pair := ["x", "y"], date := 19870,
    post_count := 25, unique_accounts := 2, is_surge := true }

/-- C9: a first surge upsert for campaign `c1`, pair `["x", "y"]`,
day 19870 inserts one record, and a repeat upsert from the same
campaign updates it in place — but the same upsert issued by a
different campaign `c2` for the same pair and day matches nothing (the
update filter includes `campaign_id`), attempts an insert, and is
rejected by the unique `(hashtag_pair, date)` index with an unhandled
`DuplicateKeyError`, contradicting the claim that no surge upsert on
the same key ever raises. -/
theorem c9_cross_campaign_duplicate_key :
    upsertActivity [] "c1" ["x", "y"] c9group = .ok [c9rec] ∧
    upsertActivity [c9rec] "c1" ["x", "y"] c9group = .ok [c9rec] ∧
    upsertActivity [c9rec] "c2" ["x", "y"] c9group = .error () := by
  refine ⟨rfl, rfl, rfl⟩

/-! ## Claim C10 — a campaign with zero search results is inert -/

/-- C10: when the hashtag-group searches of a campaign return zero
posts, `monitor_campaign` leaves the database untouched — no posts are
stored and neither detector runs, so previously ingested unprocessed
posts keep `processed = false`; only the ingestion engine state (used
and failed sets, current handle) advances. -/
theorem c10_zero_posts_no_effects (env : SearchEnv) (fails : Tweet → Bool)
    (now : Nat) (campaign : Campaign) (db : DB) (st : EngineState)
    (h : (search_hashtag_pairs env campaign.hashtag_pairs st).2 = []) :
    monitor_campaign env fails now campaign db st =
      .ok (db, (search_hashtag_pairs env campaign.hashtag_pairs st).1) := by
  simp [monitor_campaign, h]

/-- Environment for the C10 witness: every search fails with a
non-capacity error, so the searches find zero posts. -/
def c10env : SearchEnv :=
  { acquire := fun _ => { username := "b" },
    search := fun _ _ => .otherError }

/-- Campaign used by the C10 witness. -/
def c10camp : Campaign :=
  { id := "c", name := "n", hashtag_pairs := [["x", "y"]], active := true }

/-- Database with a stale unprocessed post of the campaign. -/
def c10db : DB :=
  { posts := [{ id := 1, campaign_id := "c", username := "a", hashtags := ["x"],
                caption := "", timestamp := 0, likes := 0, comments := 0,
                retweets := 0, url := "u1", processed := false }],
    flagged := [], activity := [],
    campaigns := [{ id := "c", name := "n", hashtag_pairs := [["x", "y"]],
                    active := true }] }

/-- Engine state for the C10 witness. -/
def c10st : EngineState := { api := { username := "a" }, used := [], failed := [] }

/-- C10 (witness): with an environment whose searches all fail with a
non-capacity error (zero posts found), monitoring the campaign returns
the database — including its unprocessed post — completely unchanged. -/
theorem c10_zero_posts_no_effects_witness :
    monitor_campaign c10env (fun _ => false) 100000 c10camp c10db c10st =
      .ok (c10db, c10st) :=
  c10_zero_posts_no_effects c10env (fun _ => false) 100000 c10camp c10db c10st rfl

end TwitterBot
